import Mathlib

/-!
Verification of the project-matching and parameter-reconciliation engine of the
TechnicalDesignParametersExtractor repository.

The embedding models Python strings as lists of characters (`Str`), Python
dictionaries coming back from the remote JSON API as structures whose optional
fields use `Option` (when a missing key and a JSON `null` behave identically at
every use site) or `JField` (when the code distinguishes a missing key from a
`null` value, e.g. raising on `null` but breaking on a missing key), and Python
floats produced by the similarity computation as rationals (`ℚ`), which is exact
for the arithmetic performed (`1 - d / max_len`).

Functions are translated from:
  - monday_dot_com_interface.py  (similarity, extract_project_title,
    check_project_exists, get_tapered_enquiry_projects),
  - app.py / utils.py  (extract_parameters_from_monday_project,
    map_tapered_insulation_value, the free-text per-parameter extraction loop).
-/

/-- Python `str` values, modelled as lists of characters. -/
abbrev Str := List Char

/-- Python truthiness of a string: non-empty. -/
def truthyStr (s : Str) : Bool := !s.isEmpty

/-- Python truthiness of `d.get(key)` for a string-valued key: the key is
present and holds a non-empty string (a missing key or `null` gives `None`,
which is falsy). -/
def truthyOptStr : Option Str → Bool
  | some s => truthyStr s
  | none => false

/-- Python `s.lower()` (the strings handled here are ASCII). -/
def lowerStr (s : Str) : Str := s.map Char.toLower

/-- The inner `for j, c2 in enumerate(s2)` loop of the Levenshtein computation in
`check_project_exists.similarity`: `cs` is the remaining part of `s2`, the
`List Nat` argument is the suffix `distances[j:]` of the previous row, and
`last` is `distances_[-1]`.  On equality it appends `distances[j]`, otherwise
`1 + min(distances[j], distances[j+1], distances_[-1])`. -/
def levInner (c1 : Char) : List Char → List Nat → Nat → List Nat
  | c2 :: cs, d0 :: d1 :: ds, last =>
    let v := if c1 = c2 then d0 else 1 + min d0 (min d1 last)
    v :: levInner c1 cs (d1 :: ds) v
  | _, _, _ => []

/-- The outer `for i, c1 in enumerate(s1)` loop: each character of `s1` replaces
the row `distances` by `[i + 1] ++ inner-loop result`. -/
def levRows (s2 : List Char) : List Char → Nat → List Nat → List Nat
  | [], _, row => row
  | c1 :: cs, i, row => levRows s2 cs (i + 1) ((i + 1) :: levInner c1 s2 row (i + 1))

/-- The value `distances[-1]` after processing all of `s1` starting from
`range(len(s2) + 1)`: the Levenshtein distance as computed by the source.
The row is never empty, so the `getLastD` default is never used. -/
def levDistance (s1 s2 : List Char) : Nat :=
  (levRows s2 s1 0 (List.range (s2.length + 1))).getLastD 0

/-- Function `similarity(s1, s2)` from `check_project_exists`: returns 0.0 if either
string is falsy, otherwise lowercases both, swaps so the first is the longer,
and returns `1 - distance / max_len`.  (The `max_len == 0` branch of the source
is kept; it is unreachable because of the leading falsiness guard.) -/
def similarity (s1 s2 : Str) : ℚ :=
  if !truthyStr s1 || !truthyStr s2 then 0
  else
    let t1 := lowerStr s1
    let t2 := lowerStr s2
    let p := if t1.length < t2.length then (t2, t1) else (t1, t2)
    let maxLen := max p.1.length p.2.length
    if maxLen = 0 then 1 else 1 - (levDistance p.1 p.2 : ℚ) / (maxLen : ℚ)

/-- The string `"MirrorValue"`. -/
def mirrorS : Str := "MirrorValue".toList

/-- One entry of a `column_values` array as returned by the API queries:
`id`, `text`, `__typename` and the `MirrorValue`-only `display_value`.
A missing key and a JSON `null` are both `none` (every use site reads these
fields with `.get`, or with `[]` immediately after a truthy `.get` check). -/
structure ColumnValue where
  id : Str
  text : Option Str
  typename : Option Str
  display_value : Option Str
deriving DecidableEq

/-- The per-column title candidate inside `extract_project_title`: the
`display_value` when the column is a `MirrorValue` with truthy
`display_value`, else the `text` when truthy, else nothing. -/
def columnTitle (col : ColumnValue) : Option Str :=
  if col.typename = some mirrorS ∧ truthyOptStr col.display_value then col.display_value
  else if truthyOptStr col.text then col.text
  else none

/-- Function `extract_project_title(column_values)` (monday_dot_com_interface.py and
get_projects.py): walk the columns in order and `break` as soon as
`project_title` becomes truthy. -/
def extract_project_title : List ColumnValue → Option Str
  | [] => none
  | col :: rest =>
    match columnTitle col with
    | some t => some t
    | none => extract_project_title rest

/-- An item of the Tapered Enquiry Maintenance board as consumed by
`check_project_exists` / the pagination loop.  `column_values` is read with
`.get("column_values", [])`, so a missing key is the empty list. -/
structure MondayItem where
  id : Str
  name : Str
  state : Option Str
  column_values : List ColumnValue
deriving DecidableEq

/-- The resolved display title of a project in `check_project_exists`:
`extract_project_title`, falling back to the item's `name` when the result is
falsy. -/
def projectTitleOf (p : MondayItem) : Str :=
  match extract_project_title p.column_values with
  | some t => if t.isEmpty then p.name else t
  | none => p.name

/-- One element of the `matches` list built by `check_project_exists`. -/
structure MatchEntry where
  id : Str
  name : Str
  title : Str
  similarity : ℚ
deriving DecidableEq

/-- The match-candidate record appended for a project. -/
def matchEntryOf (sample : Str) (p : MondayItem) : MatchEntry :=
  { id := p.id, name := p.name, title := projectTitleOf p,
    similarity := similarity sample (projectTitleOf p) }

/-- The `matches` list before sorting: every project, in traversal order, whose
similarity score is at least the threshold. -/
def matchesFor (sample : Str) (threshold : ℚ) (projects : List MondayItem) : List MatchEntry :=
  (projects.map (matchEntryOf sample)).filter (fun m => threshold ≤ m.similarity)

/-- The comparison used by `sorted(matches, key=lambda x: x['similarity'],
reverse=True)`: a stable sort that puts higher similarity first. -/
def descSim (a b : MatchEntry) : Bool := decide (b.similarity ≤ a.similarity)

/-- The dictionary returned by `check_project_exists`. -/
structure CheckProjectResult where
  exists_ : Bool
  type_ : Str
  matches_ : List MatchEntry
  best_match : Option MatchEntry
  similarity_score : ℚ
  error : Str
deriving DecidableEq

/-- The string `"new"`. -/
def newS : Str := "new".toList

/-- The string `"existing"`. -/
def existingS : Str := "existing".toList

/-- The error message used when the fetched project list is falsy. -/
def noProjectsErr : Str := "No projects found to compare against".toList

/-- Function `check_project_exists(sample_project_name, similarity_threshold)`.  The
outcome `(projects, error)` of `self.get_tapered_enquiry_projects()` is passed
in as `fetched`, making the function pure in its inputs. -/
def check_project_exists (fetched : Option (List MondayItem) × Str)
    (sample_project_name : Str) (similarity_threshold : ℚ) : CheckProjectResult :=
  let base : CheckProjectResult :=
    { exists_ := false
      type_ := newS
      matches_ := []
      best_match := none
      similarity_score := 0
      error := [] }
  if truthyStr fetched.2 then { base with error := fetched.2 }
  else
    match fetched.1 with
    | none => { base with error := noProjectsErr }
    | some projects =>
      if projects.isEmpty then { base with error := noProjectsErr }
      else
        match (matchesFor sample_project_name similarity_threshold projects).mergeSort descSim with
        | [] => { base with matches_ := [] }
        | best :: rest =>
          { base with
            matches_ := best :: rest
            exists_ := true
            type_ := existingS
            best_match := some best
            similarity_score := best.similarity }

/-- A field of a JSON object at a use site where the source code distinguishes
a missing key from a key holding `null`. -/
inductive JField (α : Type) where
  | absent : JField α
  | null : JField α
  | val : α → JField α
deriving DecidableEq

/-- The `items_page` object of a pagination response.  `cursor` is read with
`.get("cursor")` (missing key and `null` are both `none`); `items` is read with
`.get("items", [])`, so a missing key is the empty list while a `null` value
raises when iterated. -/
structure ItemsPage where
  cursor : Option Str
  items : JField (List MondayItem)
deriving DecidableEq

/-- A board object in a pagination response.  Only its `items_page` member is
consumed; an `items_page` key holding `null` passes the `in`-check but raises
at `page.get(...)`. -/
structure BoardPayload where
  items_page : JField ItemsPage
deriving DecidableEq

/-- The `data` object of a pagination response.  `boards` is `none` when the
key is missing or holds `null` (on the first page both subscripting failures
are caught; on later pages both are falsy under `.get`). -/
structure RespData where
  boards : Option (List BoardPayload)
deriving DecidableEq

/-- A parsed JSON response from `send_query_to_monday`.  `has_errors` records
whether the `"errors"` key is present; `data` distinguishes a missing key
(`break` on later pages) from a `null` value (raises on later pages). -/
structure MondayResp where
  has_errors : Bool
  data : JField RespData
deriving DecidableEq

/-- The possible outcomes of running a Python call against a finite trace of
remote responses: a returned value, an uncaught exception, or the trace being
exhausted with the loop still requesting pages (the behaviour is then not
determined by the given trace). -/
inductive PyOutcome (α : Type) where
  | ret : α → PyOutcome α
  | exn : PyOutcome α
  | pending : PyOutcome α
deriving DecidableEq

/-- The string `"active"`. -/
def activeS : Str := "active".toList

/-- Helper `_append_active`: keep the items whose `state` is `"active"`. -/
def activeItems (its : List MondayItem) : List MondayItem :=
  its.filter (fun i => i.state = some activeS)

/-- The `while cursor:` pagination loop of `get_tapered_enquiry_projects`.
`acc` is the accumulated `items` list, `c` the current cursor, and the list of
`Option MondayResp` is the trace of responses the remote returns to the
successive page queries (a `none` response models `send_query_to_monday`
returning `None`). -/
def paginateLoop : List (Option MondayResp) → List MondayItem → Option Str →
    PyOutcome (List MondayItem)
  | [], acc, c => if truthyOptStr c then PyOutcome.pending else PyOutcome.ret acc
  | r :: rest, acc, c =>
    if truthyOptStr c then
      match r with
      | none => PyOutcome.ret acc
      | some resp =>
        match resp.data with
        | JField.absent => PyOutcome.ret acc
        | JField.null => PyOutcome.exn
        | JField.val d =>
          match d.boards with
          | none => PyOutcome.ret acc
          | some [] => PyOutcome.ret acc
          | some (b :: _) =>
            match b.items_page with
            | JField.absent => PyOutcome.ret acc
            | JField.null => PyOutcome.exn
            | JField.val page =>
              match page.items with
              | JField.null => PyOutcome.exn
              | JField.absent => paginateLoop rest acc page.cursor
              | JField.val its => paginateLoop rest (acc ++ activeItems its) page.cursor
    else PyOutcome.ret acc

/-- The error message for a `None` first response. -/
def noResponseErr : Str := "No response from Monday.com".toList

/-- The error message when the first response carries an `"errors"` key (the
interpolated payload detail is elided). -/
def apiErr : Str := "Monday.com API error: ".toList

/-- The error message when the first page misses the expected nested
structure. -/
def unexpectedPayloadErr : Str := "Unexpected payload structure from Monday.com".toList

/-- The error message produced when no active item was collected. -/
def noActiveErr (start_date : Str) : Str :=
  ("No active projects created on or after ").toList ++ start_date ++
    (" were found on the Tapered Enquiry Maintenance board.").toList

/-- The final `if not items` step of `get_tapered_enquiry_projects`. -/
def finishTapered (start_date : Str) : PyOutcome (List MondayItem) →
    PyOutcome (Option (List MondayItem) × Str)
  | PyOutcome.ret items =>
    if items.isEmpty then PyOutcome.ret (none, noActiveErr start_date)
    else PyOutcome.ret (some items, [])
  | PyOutcome.exn => PyOutcome.exn
  | PyOutcome.pending => PyOutcome.pending

/-- Function `get_tapered_enquiry_projects(start_date)`, with the remote modelled as the
first response plus the trace of responses served to the pagination loop. -/
def get_tapered_enquiry_projects (start_date : Str) (first : Option MondayResp)
    (rest : List (Option MondayResp)) : PyOutcome (Option (List MondayItem) × Str) :=
  match first with
  | none => PyOutcome.ret (none, noResponseErr)
  | some resp =>
    if resp.has_errors then PyOutcome.ret (none, apiErr)
    else
      match resp.data with
      | JField.absent => PyOutcome.ret (none, unexpectedPayloadErr)
      | JField.null => PyOutcome.ret (none, unexpectedPayloadErr)
      | JField.val d =>
        match d.boards with
        | none => PyOutcome.ret (none, unexpectedPayloadErr)
        | some [] => PyOutcome.ret (none, unexpectedPayloadErr)
        | some (b :: _) =>
          match b.items_page with
          | JField.absent => PyOutcome.ret (none, unexpectedPayloadErr)
          | JField.null => PyOutcome.exn
          | JField.val page =>
            match page.items with
            | JField.null => PyOutcome.exn
            | JField.absent => finishTapered start_date (paginateLoop rest [] page.cursor)
            | JField.val its =>
              finishTapered start_date (paginateLoop rest (activeItems its) page.cursor)

/-- The malformed-page shapes named by the specification for pages after the
first: missing response, missing `data`, missing (or empty) `boards`, or
missing `items_page`. -/
def pageMalformed : Option MondayResp → Prop
  | none => True
  | some resp =>
    resp.data = JField.absent ∨
    (∃ d, resp.data = JField.val d ∧ (d.boards = none ∨ d.boards = some [])) ∨
    (∃ d b bs, resp.data = JField.val d ∧ d.boards = some (b :: bs) ∧
      b.items_page = JField.absent)

/-- The keys of a Python `dict` with string keys and values, in insertion
order. -/
def dictKeys (d : List (Str × Str)) : List Str := d.map Prod.fst

/-- Python `d[k] = v` on a string-keyed `dict`: an existing key is updated in
place (insertion order kept), a new key is appended at the end. -/
def dictSet (d : List (Str × Str)) (k v : Str) : List (Str × Str) :=
  if (d.map Prod.fst).contains k then
    d.map (fun kv => if kv.1 = k then (k, v) else kv)
  else d ++ [(k, v)]

/-- The sentinel `"Not found"`. -/
def notFoundS : Str := "Not found".toList

/-- The literal string `"None"` (the rendered Python `None`, compared against
`col.get('text')` in the sub-item loop). -/
def noneLitS : Str := "None".toList

/-- Parameter name `"Post Code"`. -/
def postCodeK : Str := "Post Code".toList

/-- Parameter name `"Drawing Reference"`. -/
def drawingReferenceK : Str := "Drawing Reference".toList

/-- Parameter name `"Drawing Title"`. -/
def drawingTitleK : Str := "Drawing Title".toList

/-- Parameter name `"Revision"`. -/
def revisionK : Str := "Revision".toList

/-- Parameter name `"Date Received"`. -/
def dateReceivedK : Str := "Date Received".toList

/-- Parameter name `"Company"`. -/
def companyK : Str := "Company".toList

/-- Parameter name `"Contact"`. -/
def contactK : Str := "Contact".toList

/-- Parameter name `"Reason for Change"`. -/
def reasonForChangeK : Str := "Reason for Change".toList

/-- Parameter name `"Surveyor"`. -/
def surveyorK : Str := "Surveyor".toList

/-- Parameter name `"Target U-Value"`. -/
def targetUValueK : Str := "Target U-Value".toList

/-- Parameter name `"Target Min U-Value"`. -/
def targetMinUValueK : Str := "Target Min U-Value".toList

/-- Parameter name `"Fall of Tapered"`. -/
def fallOfTaperedK : Str := "Fall of Tapered".toList

/-- Parameter name `"Tapered Insulation"`. -/
def taperedInsulationK : Str := "Tapered Insulation".toList

/-- Parameter name `"Decking"`. -/
def deckingK : Str := "Decking".toList

/-- The extra parameter name `"Designer"`, which appears in the sub-item
column mapping but not among the initial defaults. -/
def designerK : Str := "Designer".toList

/-- Default value `"Amendment"` for Reason for Change. -/
def amendmentS : Str := "Amendment".toList

/-- The 14 fixed parameter names of the canonical `ParameterSet`, in the
insertion order of the `params` initializer. -/
def fixedParamKeys : List Str :=
  [postCodeK, drawingReferenceK, drawingTitleK, revisionK, dateReceivedK,
   companyK, contactK, reasonForChangeK, surveyorK, targetUValueK,
   targetMinUValueK, fallOfTaperedK, taperedInsulationK, deckingK]

/-- The `params` dictionary initializer of
`extract_parameters_from_monday_project`: every parameter defaults to
`"Not found"` except Reason for Change, which defaults to `"Amendment"`. -/
def initParams : List (Str × Str) :=
  [(postCodeK, notFoundS), (drawingReferenceK, notFoundS),
   (drawingTitleK, notFoundS), (revisionK, notFoundS),
   (dateReceivedK, notFoundS), (companyK, notFoundS), (contactK, notFoundS),
   (reasonForChangeK, amendmentS), (surveyorK, notFoundS),
   (targetUValueK, notFoundS), (targetMinUValueK, notFoundS),
   (fallOfTaperedK, notFoundS), (taperedInsulationK, notFoundS),
   (deckingK, notFoundS)]

/-- The column id `"dropdown_mknfpjbt"` (Zip Code). -/
def dropdownZipId : Str := "dropdown_mknfpjbt".toList

/-- The column id `"text3__1"` (Project Name). -/
def projectNameId : Str := "text3__1".toList

/-- The column id `"mirror034__1"` (mislabelled; actually used to override
Target U-Value in a second pass). -/
def wasteageId : Str := "mirror034__1".toList

/-- The `column_mappings` table of `extract_parameters_from_monday_project`:
sub-item column ids to parameter names. -/
def column_mappings : List (Str × Str) :=
  [(("mirror_12__1").toList, companyK),
   (("mirror39__1").toList, designerK),
   (("mirror_11__1").toList, contactK),
   (("mirror92__1").toList, surveyorK),
   (("mirror0__1").toList, targetUValueK),
   (("mirror12__1").toList, targetMinUValueK),
   (("mirror22__1").toList, fallOfTaperedK),
   (("mirror875__1").toList, taperedInsulationK),
   (("mirror75__1").toList, deckingK),
   (("mirror95__1").toList, dateReceivedK),
   (("mirror03__1").toList, reasonForChangeK),
   (("mirror_1__1").toList, revisionK)]

/-- A sub-item (revision) of a project-detail record. -/
structure SubItem where
  id : Str
  name : Str
  column_values : List ColumnValue
deriving DecidableEq

/-- The project-detail record passed to
`extract_parameters_from_monday_project`.  `column_values` is read with
`.get('column_values', [])`; `subitems` with `.get('subitems')` followed by a
truthiness test. -/
structure ProjectDetails where
  column_values : List ColumnValue
  subitems : Option (List SubItem)
deriving DecidableEq

/-- The first `for col in project_details.get('column_values', [])` loop body:
Post Code from the Zip Code dropdown, Drawing Title from the Project Name
column (text first, `MirrorValue` display value as fallback). -/
def mainColStep (d : List (Str × Str)) (col : ColumnValue) : List (Str × Str) :=
  if col.id = dropdownZipId ∧ truthyOptStr col.text then
    dictSet d postCodeK (col.text.getD [])
  else if col.id = projectNameId then
    if truthyOptStr col.text then dictSet d drawingTitleK (col.text.getD [])
    else if col.typename = some mirrorS ∧ truthyOptStr col.display_value then
      dictSet d drawingTitleK (col.display_value.getD [])
    else d
  else d

/-- The mapped-column loop body over the selected sub-item's columns: a truthy
`text` different from the literal `"None"` wins, else a `MirrorValue` with
truthy `display_value`. -/
def subColStep (d : List (Str × Str)) (col : ColumnValue) : List (Str × Str) :=
  match column_mappings.lookup col.id with
  | some param_name =>
    if truthyOptStr col.text ∧ col.text ≠ some noneLitS then
      dictSet d param_name (col.text.getD [])
    else if col.typename = some mirrorS ∧ truthyOptStr col.display_value then
      dictSet d param_name (col.display_value.getD [])
    else d
  | none => d

/-- The second pass over the sub-item's columns: `mirror034__1` overrides
Target U-Value whenever it carries a truthy `text` (even the literal `"None"`
is not filtered here) or is a `MirrorValue` with truthy `display_value`. -/
def wasteageStep (d : List (Str × Str)) (col : ColumnValue) : List (Str × Str) :=
  if col.id = wasteageId ∧
      (truthyOptStr col.text ∨ (col.typename = some mirrorS ∧ truthyOptStr col.display_value)) then
    dictSet d targetUValueK
      (if truthyOptStr col.text then col.text.getD [] else col.display_value.getD [])
  else d

/-- Python string `<` (lexicographic on code points), used by
`sorted(subitems, key=lambda x: x['id'], reverse=True)`. -/
def strLt : Str → Str → Bool
  | _, [] => false
  | [], _ :: _ => true
  | a :: as_, b :: bs => if a < b then true else if b < a then false else strLt as_ bs

/-- The stable descending-by-`id` comparison for the sub-item sort. -/
def subIdDesc (a b : SubItem) : Bool := !(strLt a.id b.id)

/-- Function `extract_parameters_from_monday_project(project_details)`.  The implicit
`datetime.now().strftime("%Y-%m-%d")` clock reading is passed in as `today`. -/
def extract_parameters_from_monday_project (today : Str)
    (project_details : ProjectDetails) : List (Str × Str) :=
  let p0 := project_details.column_values.foldl mainColStep initParams
  let p1 := dictSet p0 dateReceivedK today
  match project_details.subitems with
  | none => p1
  | some subs =>
    if subs.isEmpty then p1
    else
      match subs.mergeSort subIdDesc with
      | [] => p1
      | latest :: _ =>
        let p2 := if latest.name.contains '_' then dictSet p1 drawingReferenceK latest.name
                  else p1
        let p3 := latest.column_values.foldl subColStep p2
        latest.column_values.foldl wasteageStep p3

/-- Python `needle in hay` on strings: contiguous-substring membership. -/
def isSubstr : Str → Str → Bool
  | needle, [] => needle.isEmpty
  | needle, hay@(_ :: rest) => needle.isPrefixOf hay || isSubstr needle rest

/-- The product test of `map_tapered_insulation_value`:
`product.lower() in value.lower() or value.lower() in product.lower()`. -/
def prodMatch (value product : Str) : Bool :=
  isSubstr (lowerStr product) (lowerStr value) || isSubstr (lowerStr value) (lowerStr product)

/-- The `insulation_mappings` lookup table (category names to product
codes/synonyms), in source order. -/
def insulation_mappings : List (Str × List Str) :=
  [(("TissueFaced PIR").toList,
    [("TT47").toList, ("TR27").toList, ("Glass Tissue PIR").toList,
     ("Powerdeck F").toList, ("Adhered").toList, ("MG").toList,
     ("TR/MG").toList, ("FR/MG").toList, ("BauderPIR FA-TE").toList,
     ("Evatherm A").toList, ("Hytherm ADH").toList]),
   (("TorchOn PIR").toList,
    [("TT44").toList, ("TR24").toList, ("Torched").toList,
     ("Powerdeck U").toList, ("Torched").toList, ("BGM").toList,
     ("TR/BGM").toList, ("FR/BGM").toList, ("BauderPIR FA").toList]),
   (("FoilFaced PIR").toList,
    [("TT46").toList, ("TR26").toList, ("Foil").toList,
     ("Powerdeck Eurodeck").toList, ("Mech Fixed").toList, ("ALU").toList,
     ("TR/ALU").toList, ("FR/ALU").toList, ("Aluminium Faced").toList]),
   (("ROCKWOOL HardRock MultiFix DD").toList,
    [("Mineral wool").toList, ("Hardrock").toList, ("stonewool").toList,
     ("stone wool").toList, ("rock wool").toList, ("bauderrock").toList]),
   (("Foamglas T3+").toList,
    [("Cellular Glass").toList, ("foamed glass").toList, ("Bauderglas").toList]),
   (("EPS").toList, [("Expanded Polystrene").toList]),
   (("XPS").toList, [("Extruded Polystyrene").toList])]

/-- Function `map_tapered_insulation_value(value)` (app.py and utils.py): the first
category, in table order, one of whose products matches; the value unchanged
when falsy, `"Not found"`, or unmatched. -/
def map_tapered_insulation_value (value : Str) : Str :=
  if truthyStr value ∧ value ≠ notFoundS then
    match insulation_mappings.find? (fun cp => cp.2.any (fun p => prodMatch value p)) with
    | some cp => cp.1
    | none => value
  else value

/-- Python `\s` whitespace characters (the inputs here are ASCII). -/
def isPySpace (c : Char) : Bool :=
  c = ' ' || c = '\t' || c = '\n' || c = '\x0d' || c = '\x0b' || c = '\x0c'

/-- Case-insensitive prefix test (`re.IGNORECASE` on ASCII). -/
def ciStartsWith : Str → Str → Bool
  | [], _ => true
  | _ :: _, [] => false
  | l :: ls, t :: ts => Char.toLower l = Char.toLower t && ciStartsWith ls ts

/-- Scan for the first position where `label` matches case-insensitively and
return the remainder of the text after it (the scan of `re.search`). -/
def findAfterLabel (label : Str) : Str → Option Str
  | [] => if ciStartsWith label [] then some [] else none
  | t :: rest =>
    if ciStartsWith label (t :: rest) then some ((t :: rest).drop label.length)
    else findAfterLabel label rest

/-- The value captured by `re.search(rf"{param}:?\s*(.*?)(?:\n|$)", text,
re.IGNORECASE)`: after the first case-insensitive occurrence of the label, an
optional colon and a maximal whitespace run are consumed, and the capture runs
to the next newline or the end of the text. -/
def regexParamValue (label text : Str) : Option Str :=
  (findAfterLabel label text).map (fun rest =>
    let rest1 := match rest with
      | ':' :: t => t
      | _ => rest
    ((rest1.dropWhile isPySpace).takeWhile (fun c => c ≠ '\n')))

/-- Python `str.strip()` with no arguments: remove whitespace at both ends. -/
def pyStrip (s : Str) : Str :=
  ((s.dropWhile isPySpace).reverse.dropWhile isPySpace).reverse

/-- Substitution `re.sub(r'^\*+\s*', '', value)`: remove a leading run of asterisks and the
whitespace that follows it (only when at least one asterisk leads). -/
def stripLeadingAsterisks (s : Str) : Str :=
  match s with
  | '*' :: _ => (s.dropWhile (fun c => c = '*')).dropWhile isPySpace
  | _ => s

/-- ASCII uppercase letter (the class `[A-Z]`). -/
def isUpperAZ (c : Char) : Bool := 'A' ≤ c ∧ c ≤ 'Z'

/-- ASCII digit (the class `[0-9]`). -/
def isDigit09 (c : Char) : Bool := '0' ≤ c ∧ c ≤ '9'

/-- A match of `([A-Z]{1,2})[0-9]` anchored at the head of `cs`: two letters
before a digit are preferred (greedy `{1,2}`), else one letter before a
digit. -/
def ukAreaAt : Str → Option Str
  | a :: b :: c :: _ =>
    if isUpperAZ a ∧ isUpperAZ b ∧ isDigit09 c then some [a, b]
    else if isUpperAZ a ∧ isDigit09 b then some [a]
    else none
  | [a, b] => if isUpperAZ a ∧ isDigit09 b then some [a] else none
  | _ => none

/-- Search with `re.search` for `([A-Z]{1,2})[0-9]`: the group of the leftmost match. -/
def ukAreaSearch : Str → Option Str
  | [] => none
  | c :: rest =>
    match ukAreaAt (c :: rest) with
    | some a => some a
    | none => ukAreaSearch rest

/-- The sentinel `"Not provided"`. -/
def notProvidedS : Str := "Not provided".toList

/-- The Post Code branch of the free-text result loop in `main` (app.py):
skip empty and sentinel values, then replace the value by the area letters of
the leftmost UK-postcode-shaped substring of its uppercased form, keeping the
value when none is found. -/
def postCodeProcess (v : Str) : Str :=
  if truthyStr v ∧ v ≠ notFoundS ∧ v ≠ notProvidedS then
    match ukAreaSearch (v.map Char.toUpper) with
    | some area => area
    | none => v
  else v

/-- The label `"Post Code"`. -/
def postCodeLabel : Str := "Post Code".toList

/-- The complete free-text path for the Post Code parameter: regex capture
from the analysis text, `strip()`, leading-asterisk removal, then the Post
Code post-processing; `"Not found"` when the pattern does not match. -/
def freeTextPostCode (llm_response : Str) : Str :=
  match regexParamValue postCodeLabel llm_response with
  | some raw => postCodeProcess (stripLeadingAsterisks (pyStrip raw))
  | none => notFoundS

/-- The conjunction of result-shape invariants of `check_project_exists`:
`exists` holds exactly when `matches` is non-empty, `best_match` is defined
exactly when `exists` holds, `best_match` is the head of `matches`, and
`similarity_score` is the similarity of `best_match` (0 when undefined). -/
def resultInvariant (r : CheckProjectResult) : Prop :=
  ((r.exists_ = true) ↔ r.matches_ ≠ []) ∧
  r.best_match.isSome = r.exists_ ∧
  r.best_match = r.matches_.head? ∧
  r.similarity_score = ((r.best_match.map MatchEntry.similarity).getD 0)

/-- The key-set invariant actually maintained by
`extract_parameters_from_monday_project`: the keys are the 14 fixed parameter
names, possibly followed by the extra `"Designer"` key. -/
def keysOk (d : List (Str × Str)) : Prop :=
  dictKeys d = fixedParamKeys ∨ dictKeys d = fixedParamKeys ++ [designerK]

/-- The sub-item column id `"mirror39__1"` mapped to `"Designer"`. -/
def designerColId : Str := "mirror39__1".toList

/-- A record with one sub-item carrying only a populated Designer column:
input for the C1 counterexample. -/
def c1subitem : SubItem :=
  { id := ("10001").toList
    name := ("16903_25.01 - A").toList
    column_values :=
      [{ id := designerColId, text := some (("Jane Doe").toList), typename := none,
         display_value := none }] }

/-- The C1 counterexample record. -/
def c1project : ProjectDetails := { column_values := [], subitems := some [c1subitem] }

/-- A fixed clock reading for the C1 counterexample. -/
def c1today : Str := "2026-10-12".toList

/-- A column with a non-empty `text` and no display value (C3). -/
def c3colText : ColumnValue :=
  { id := ("text_col").toList, text := some (("Title A").toList), typename := none,
    display_value := none }

/-- A later `MirrorValue` column with a non-empty `display_value` (C3). -/
def c3colMirror : ColumnValue :=
  { id := ("mirror_col").toList, text := none, typename := some mirrorS,
    display_value := some (("Title B").toList) }

/-- A sub-item column whose `text` is the literal `"None"` but which is a
`MirrorValue` with a usable display value (C9 witness). -/
def c9col : ColumnValue :=
  { id := ("mirror_12__1").toList, text := some noneLitS, typename := some mirrorS,
    display_value := some (("Acme Roofing").toList) }

/-- An arbitrary collected item for the C7 witness. -/
def c7item : MondayItem :=
  { id := ("42").toList, name := ("proj").toList, state := some activeS,
    column_values := [] }

/-- A non-empty cursor for the C7 witness. -/
def c7cursor : Str := "cursor0".toList

/-- The category name `"Foamglas T3+"`. -/
def foamglasCatS : Str := "Foamglas T3+".toList

/-- The category name `"TissueFaced PIR"`. -/
def tissueFacedCatS : Str := "TissueFaced PIR".toList

/-- The product value `"Cellular Glass"` (C10 counterexample input). -/
def cellularGlassS : Str := "Cellular Glass".toList

/-- A free-text analysis blob containing the line
`Post Code: SW1A 1AA, London` (C8). -/
def c8ExampleText : Str :=
  "Drawing Title: Riverside School\nPost Code: SW1A 1AA, London\nRevision: A\n".toList

/-- The expected Post Code area letters for the C8 example. -/
def swS : Str := "SW".toList

/-- A free-text analysis blob whose Post Code line carries explicit
`not provided` phrasing (C8 counterexample input). -/
def c8NotProvidedText : Str := "Post Code: not provided\nRevision: A\n".toList

/-- The lowercase value `"not provided"`. -/
def notProvidedLowerS : Str := "not provided".toList

/-- A lowercase postcode value used by the C8 witness. -/
def c8WitnessValue : Str := "sw1a 1aa".toList

/-! ## Helper lemmas -/

/-- A title candidate produced by `columnTitle` is a truthy (non-empty)
string. -/
theorem columnTitle_truthy (col : ColumnValue) (t : Str)
    (h : columnTitle col = some t) : truthyStr t = true := by
  unfold columnTitle at h
  split at h
  · rename_i hcond
    rw [h] at hcond
    exact hcond.2
  · split at h
    · rename_i hcond
      rw [h] at hcond
      exact hcond
    · exact absurd h (by simp)

/-- The function `extract_project_title` returns the candidate of the first column that
yields one. -/
theorem extract_project_title_eq_head (cols : List ColumnValue) :
    extract_project_title cols = (cols.filterMap columnTitle).head? := by
  induction cols with
  | nil => rfl
  | cons col rest ih =>
    unfold extract_project_title
    rw [List.filterMap_cons]
    cases h : columnTitle col
    · exact ih
    · rfl

/-- The function `map_tapered_insulation_value` either keeps the value or returns the name
of a category of the table. -/
theorem map_tapered_cases (v : Str) :
    map_tapered_insulation_value v = v ∨
      ∃ cp ∈ insulation_mappings, map_tapered_insulation_value v = cp.1 := by
  unfold map_tapered_insulation_value
  split
  · cases hfind : insulation_mappings.find? (fun cp => cp.2.any (fun p => prodMatch v p)) with
    | none => left; rfl
    | some cp => right; exact ⟨cp, List.mem_of_find?_eq_some hfind, rfl⟩
  · left; rfl

/-- Applying the insulation mapping to a category name of the table is the
identity, except for `"Foamglas T3+"`, which the table itself maps on to
`"TissueFaced PIR"` (the product code `"MG"` is a substring of
`"foamglas"`). -/
theorem map_tapered_on_categories :
    ∀ cp ∈ insulation_mappings,
      map_tapered_insulation_value cp.1 = cp.1 ∨
        (cp.1 = foamglasCatS ∧ map_tapered_insulation_value cp.1 = tissueFacedCatS) := by
  decide

/-- The final empty-check of `get_tapered_enquiry_projects` never produces an
empty successful list and always attaches a non-empty message to a `None`
result. -/
theorem finishTapered_shape (sd : Str) (o : PyOutcome (List MondayItem)) :
    match finishTapered sd o with
    | PyOutcome.ret (some l, e) => l ≠ [] ∧ e = []
    | PyOutcome.ret (none, e) => e ≠ []
    | PyOutcome.exn => True
    | PyOutcome.pending => True := by
  rcases o with items | _ | _
  · simp only [finishTapered]
    by_cases h : items.isEmpty = true
    · rw [if_pos h]
      show noActiveErr sd ≠ []
      intro hnil
      unfold noActiveErr at hnil
      exact absurd (List.append_eq_nil.mp (List.append_eq_nil.mp hnil).1).1 (by decide)
    · rw [if_neg h]
      exact ⟨fun hnil => h (by rw [hnil]; rfl), rfl⟩
  · trivial
  · trivial

/-! ## Claim theorems -/

/-- C2: the `similarity` base cases at the failing input of the claim.  The
claim states `similarity("", "") == 1.0`, matching the function's own comment
on its `max_len == 0` branch ("Both strings are empty"), but the leading
`if not s1 or not s2: return 0.0` guard shadows that branch, so the code
returns 0.0 on two empty strings. -/
theorem c2_similarity_empty_empty : similarity [] [] = 0 ∧ similarity [] [] ≠ 1 := by
  constructor
  · rfl
  · intro h
    exact absurd h (by decide)

/-- C9: in the mapped-column pass of `extract_parameters_from_monday_project`,
a column whose `text` is the literal string `"None"` never contributes its
text; the mapped parameter is set from `display_value` exactly when the column
is a `MirrorValue` with a truthy `display_value`, and the dictionary is left
unchanged otherwise. -/
theorem c9_none_text_is_absent (d : List (Str × Str)) (col : ColumnValue)
    (param_name : Str)
    (hmap : column_mappings.lookup col.id = some param_name)
    (htext : col.text = some noneLitS) :
    subColStep d col =
      if col.typename = some mirrorS ∧ truthyOptStr col.display_value then
        dictSet d param_name (col.display_value.getD [])
      else d := by
  unfold subColStep
  rw [hmap]
  dsimp only
  have hno : ¬(truthyOptStr col.text = true ∧ col.text ≠ some noneLitS) := by
    rw [htext]
    rintro ⟨-, h⟩
    exact h rfl
  rw [if_neg hno]

/-- C9 witness: a concrete `MirrorValue` column with text `"None"` and display
value `"Acme Roofing"` mapped through the Company column id. -/
theorem c9_witness :
    column_mappings.lookup c9col.id = some companyK ∧ c9col.text = some noneLitS ∧
    subColStep initParams c9col =
      (if c9col.typename = some mirrorS ∧ truthyOptStr c9col.display_value then
        dictSet initParams companyK (c9col.display_value.getD [])
      else initParams) :=
  ⟨by decide, rfl, c9_none_text_is_absent initParams c9col companyK (by decide) rfl⟩

/-- C7: a malformed page after the first (missing response, missing `data`,
missing or empty `boards`, or missing `items_page`) makes the pagination loop
stop at that page and return exactly the items collected from the earlier
pages (`acc`), whatever responses would have followed. -/
theorem c7_malformed_page_truncates (acc : List MondayItem) (c : Option Str)
    (r : Option MondayResp) (rest : List (Option MondayResp))
    (hc : truthyOptStr c = true) (hm : pageMalformed r) :
    paginateLoop (r :: rest) acc c = PyOutcome.ret acc := by
  unfold paginateLoop
  rw [if_pos hc]
  rcases r with _ | ⟨he, _ | _ | ⟨_ | (_ | ⟨⟨_ | _ | page⟩, bs⟩)⟩⟩
  · rfl
  · rfl
  · simp [pageMalformed] at hm
  · rfl
  · rfl
  · rfl
  · simp [pageMalformed] at hm
  · simp [pageMalformed] at hm

/-- C7 witness: with a non-empty cursor, one collected item and a `None`
response for the next page, the loop returns the collected item. -/
theorem c7_witness :
    truthyOptStr (some c7cursor) = true ∧ pageMalformed none ∧
    paginateLoop [none] [c7item] (some c7cursor) = PyOutcome.ret [c7item] :=
  ⟨by decide, trivial,
    c7_malformed_page_truncates [c7item] (some c7cursor) none [] (by decide) trivial⟩

/-- C6: whenever `get_tapered_enquiry_projects` returns (for any first
response and any trace of pagination responses), a returned item list is
non-empty and paired with the empty error, and a `None` item result always
carries a non-empty error message: an empty collection is reported as an
error, never as an empty-list success. -/
theorem c6_empty_is_error_nonempty_is_success (sd : Str) (first : Option MondayResp)
    (rest : List (Option MondayResp)) :
    match get_tapered_enquiry_projects sd first rest with
    | PyOutcome.ret (some l, e) => l ≠ [] ∧ e = []
    | PyOutcome.ret (none, e) => e ≠ []
    | PyOutcome.exn => True
    | PyOutcome.pending => True := by
  unfold get_tapered_enquiry_projects
  rcases first with _ | ⟨he, hdata⟩
  · show noResponseErr ≠ []
    decide
  · dsimp only
    cases he
    · rw [if_neg (by decide : ¬(false = true))]
      rcases hdata with _ | _ | ⟨_ | (_ | ⟨⟨_ | _ | ⟨pc, _ | _ | its⟩⟩, bs⟩)⟩
      · show unexpectedPayloadErr ≠ []
        decide
      · show unexpectedPayloadErr ≠ []
        decide
      · show unexpectedPayloadErr ≠ []
        decide
      · show unexpectedPayloadErr ≠ []
        decide
      · show unexpectedPayloadErr ≠ []
        decide
      · trivial
      · exact finishTapered_shape sd (paginateLoop rest [] pc)
      · trivial
      · exact finishTapered_shape sd (paginateLoop rest (activeItems its) pc)
    · rw [if_pos rfl]
      show apiErr ≠ []
      decide

/-- C10 counterexample: `map_tapered_insulation_value` is not idempotent.  The
value `"Cellular Glass"` maps to the category `"Foamglas T3+"`, but a second
application maps that category name on to `"TissueFaced PIR"`, because the
TissueFaced product code `"MG"` occurs inside `"foamglas"` under the
case-insensitive substring test. -/
theorem c10_counterexample :
    map_tapered_insulation_value (map_tapered_insulation_value cellularGlassS) ≠
      map_tapered_insulation_value cellularGlassS := by
  decide

/-- C10 (amended): applying `map_tapered_insulation_value` twice gives the same
result as applying it once, except when the first application produced the
category `"Foamglas T3+"`; that name is itself remapped to
`"TissueFaced PIR"` by the second application. -/
theorem c10_amended_almost_idempotent (v : Str) :
    map_tapered_insulation_value (map_tapered_insulation_value v) =
        map_tapered_insulation_value v ∨
      (map_tapered_insulation_value v = foamglasCatS ∧
        map_tapered_insulation_value (map_tapered_insulation_value v) = tissueFacedCatS) := by
  rcases map_tapered_cases v with h | ⟨cp, hmem, h⟩
  · left
    rw [h]
    exact h
  · rcases map_tapered_on_categories cp hmem with h2 | ⟨h2, h3⟩
    · left
      rw [h, h2]
    · right
      rw [h]
      exact ⟨h2, h3⟩

/-- C3 counterexample: with an earlier column carrying only a non-empty `text`
(`"Title A"`) and a later `MirrorValue` column carrying a non-empty
`display_value` (`"Title B"`), `extract_project_title` returns the earlier
column's text, not the later display value the claim predicts. -/
theorem c3_counterexample :
    extract_project_title [c3colText, c3colMirror] = some (c3colText.text.getD []) ∧
      c3colText.text.getD [] ≠ c3colMirror.display_value.getD [] := by
  constructor
  · rfl
  · decide

/-- C3 (amended): the matcher resolves the title from the first column, in
traversal order, that yields a candidate, where a single column yields its
`display_value` if it is a `MirrorValue` with non-empty `display_value` and
otherwise its non-empty `text`; the item's own `name` is used when no column
yields a candidate. -/
theorem c3_amended_first_yielding_column :
    (∀ cols : List ColumnValue,
      extract_project_title cols = (cols.filterMap columnTitle).head?) ∧
    (∀ p : MondayItem,
      projectTitleOf p = ((p.column_values.filterMap columnTitle).head?).getD p.name) := by
  refine ⟨extract_project_title_eq_head, fun p => ?_⟩
  unfold projectTitleOf
  rw [extract_project_title_eq_head]
  cases h : (p.column_values.filterMap columnTitle).head? with
  | none => rfl
  | some t =>
    have ht : truthyStr t = true := by
      have hmem : t ∈ p.column_values.filterMap columnTitle := List.mem_of_mem_head? h
      obtain ⟨col, -, hcol⟩ := List.mem_filterMap.mp hmem
      exact columnTitle_truthy col t hcol
    have : t.isEmpty = false := by
      cases hemp : t.isEmpty
      · rfl
      · rw [truthyStr, hemp] at ht
        exact absurd ht (by decide)
    dsimp only
    rw [this]
    rfl

/-- C5: for every fetch outcome, candidate name and threshold, the result of
`check_project_exists` satisfies the classification invariants: `exists` holds
exactly when `matches` is non-empty, `best_match` is defined exactly when
`exists` holds, `best_match` is the head of `matches`, and `similarity_score`
is the similarity of the best match (0 when there is none). -/
theorem c5_classification_invariants (fetched : Option (List MondayItem) × Str)
    (sample : Str) (thr : ℚ) :
    resultInvariant (check_project_exists fetched sample thr) := by
  obtain ⟨op, err⟩ := fetched
  unfold check_project_exists
  dsimp only
  by_cases h2 : truthyStr err = true
  · rw [if_pos h2]
    simp [resultInvariant]
  · rw [if_neg h2]
    rcases op with _ | projects
    · simp [resultInvariant]
    · dsimp only
      by_cases hp : projects.isEmpty = true
      · rw [if_pos hp]
        simp [resultInvariant]
      · rw [if_neg hp]
        cases hs : (matchesFor sample thr projects).mergeSort descSim
        · simp [resultInvariant]
        · simp [resultInvariant]

/-- Comparison `descSim` is transitive. -/
theorem descSim_trans : ∀ (a b c : MatchEntry), descSim a b → descSim b c → descSim a c := by
  intro a b c h1 h2
  simp only [descSim, decide_eq_true_eq] at *
  exact le_trans h2 h1

/-- Comparison `descSim` is total. -/
theorem descSim_total : ∀ (a b : MatchEntry), descSim a b || descSim b a := by
  intro a b
  simp only [descSim, Bool.or_eq_true, decide_eq_true_eq]
  exact le_total b.similarity a.similarity

/-- The `matches` component of a successful fetch is the stable descending
sort of the threshold-filtered traversal list. -/
theorem check_matches_eq (projects : List MondayItem) (sample : Str) (thr : ℚ) :
    (check_project_exists (some projects, []) sample thr).matches_ =
      (matchesFor sample thr projects).mergeSort descSim := by
  unfold check_project_exists
  dsimp only
  rw [if_neg (by decide : ¬(truthyStr ([] : Str) = true))]
  by_cases hp : projects.isEmpty = true
  · rw [if_pos hp]
    have hnil : projects = [] := by
      cases projects
      · rfl
      · exact absurd hp (by simp)
    subst hnil
    simp [matchesFor]
  · rw [if_neg hp]
    cases hs : (matchesFor sample thr projects).mergeSort descSim
    · rfl
    · rfl

/-- C4: the `matches` list of `check_project_exists` on a successful fetch
contains exactly the traversal entries whose similarity reaches the threshold,
is sorted by descending similarity, and entries of equal similarity keep their
catalog traversal order (the filtered sublist at any similarity value is
unchanged). -/
theorem c4_matches_sorted_stable (sample : Str) (thr : ℚ) (projects : List MondayItem) :
    (∀ m, m ∈ (check_project_exists (some projects, []) sample thr).matches_ ↔
        m ∈ matchesFor sample thr projects) ∧
    (check_project_exists (some projects, []) sample thr).matches_.Pairwise
        (fun a b => b.similarity ≤ a.similarity) ∧
    (∀ q : ℚ,
      (check_project_exists (some projects, []) sample thr).matches_.filter
          (fun m => decide (m.similarity = q)) =
        (matchesFor sample thr projects).filter (fun m => decide (m.similarity = q))) := by
  rw [check_matches_eq]
  refine ⟨fun m => List.mem_mergeSort, ?_, fun q => ?_⟩
  · have hs := List.sorted_mergeSort descSim_trans descSim_total
      (matchesFor sample thr projects)
    exact hs.imp (fun h => by simpa [descSim] using h)
  · have hall : ∀ m ∈ (matchesFor sample thr projects).filter
        (fun m => decide (m.similarity = q)), (fun m => decide (m.similarity = q)) m = true :=
      fun m hm => (List.mem_filter.mp hm).2
    have hpair : ((matchesFor sample thr projects).filter
        (fun m => decide (m.similarity = q))).Pairwise (fun a b => descSim a b = true) := by
      apply List.pairwise_of_forall_mem_list
      intro a ha b hb
      have ha2 : a.similarity = q := by simpa using (List.mem_filter.mp ha).2
      have hb2 : b.similarity = q := by simpa using (List.mem_filter.mp hb).2
      simp [descSim, ha2, hb2]
    have hsub : List.Sublist
        ((matchesFor sample thr projects).filter (fun m => decide (m.similarity = q)))
        ((matchesFor sample thr projects).mergeSort descSim) :=
      List.sublist_mergeSort descSim_trans descSim_total hpair
        (List.filter_sublist (matchesFor sample thr projects))
    have hsub2 : List.Sublist
        ((matchesFor sample thr projects).filter (fun m => decide (m.similarity = q)))
        (((matchesFor sample thr projects).mergeSort descSim).filter
          (fun m => decide (m.similarity = q))) := by
      have h3 := hsub.filter (fun m => decide (m.similarity = q))
      rwa [List.filter_eq_self.mpr hall] at h3
    have hlen : (((matchesFor sample thr projects).mergeSort descSim).filter
        (fun m => decide (m.similarity = q))).length =
        ((matchesFor sample thr projects).filter (fun m => decide (m.similarity = q))).length :=
      ((List.mergeSort_perm (matchesFor sample thr projects) descSim).filter
        (fun m => decide (m.similarity = q))).length_eq
    exact (hsub2.eq_of_length hlen.symm).symm

/-- A key present in a list contains-checks to `true`. -/
theorem contains_of_mem (l : List Str) (k : Str) (h : k ∈ l) : l.contains k = true := by
  simp [List.contains, List.elem_eq_mem, h]

/-- Update `dictSet` keeps the key list unchanged for an existing key and appends a
new key at the end. -/
theorem dictSet_keys (d : List (Str × Str)) (k v : Str) :
    dictKeys (dictSet d k v) =
      if (d.map Prod.fst).contains k then dictKeys d else dictKeys d ++ [k] := by
  unfold dictSet dictKeys
  split
  · rw [List.map_map]
    apply List.map_congr_left
    intro kv _
    by_cases h : kv.1 = k
    · simp [h]
    · simp [h]
  · simp

/-- Update `dictSet` with a key among the fixed parameter names or `"Designer"`
preserves the key-set invariant. -/
theorem keysOk_dictSet (d : List (Str × Str)) (k v : Str)
    (hk : k ∈ fixedParamKeys ∨ k = designerK) (h : keysOk d) : keysOk (dictSet d k v) := by
  have hkeys := dictSet_keys d k v
  have hmap : d.map Prod.fst = dictKeys d := rfl
  rcases h with h | h <;> rcases hk with hk | hk
  · left
    rw [hkeys, hmap, h, if_pos (contains_of_mem _ _ hk)]
  · right
    subst hk
    rw [hkeys, hmap, h, if_neg (by decide : ¬(fixedParamKeys.contains designerK = true))]
  · right
    rw [hkeys, hmap, h, if_pos (contains_of_mem _ _ (List.mem_append_left _ hk))]
  · right
    subst hk
    rw [hkeys, hmap, h,
      if_pos (contains_of_mem _ _ (List.mem_append_right _ (by simp)))]

/-- A fold whose step preserves the key-set invariant preserves it. -/
theorem foldl_keysOk {α : Type} (step : List (Str × Str) → α → List (Str × Str))
    (hstep : ∀ d x, keysOk d → keysOk (step d x)) :
    ∀ (l : List α) (d : List (Str × Str)), keysOk d → keysOk (l.foldl step d) := by
  intro l
  induction l with
  | nil => exact fun d h => h
  | cons x xs ih => exact fun d h => ih (step d x) (hstep d x h)

/-- A value delivered by `List.lookup` occurs among the second components. -/
theorem lookup_mem_values (l : List (Str × Str)) (a b : Str)
    (h : l.lookup a = some b) : b ∈ l.map Prod.snd := by
  induction l with
  | nil => exact absurd h (by simp)
  | cons p rest ih =>
    obtain ⟨k, v⟩ := p
    rw [List.lookup_cons] at h
    cases hk : a == k
    · rw [hk] at h
      exact List.mem_cons_of_mem _ (ih h)
    · rw [hk] at h
      injection h with h
      subst h
      exact List.mem_cons_self _ _

/-- Every parameter name of the sub-item column mapping is a fixed key or
`"Designer"`. -/
theorem column_mappings_values :
    ∀ p ∈ column_mappings.map Prod.snd, p ∈ fixedParamKeys ∨ p = designerK := by
  decide

/-- The main-item column pass preserves the key-set invariant. -/
theorem mainColStep_keysOk (d : List (Str × Str)) (col : ColumnValue)
    (h : keysOk d) : keysOk (mainColStep d col) := by
  unfold mainColStep
  split_ifs
  all_goals first
    | exact h
    | exact keysOk_dictSet _ _ _ (Or.inl (by decide)) h

/-- The mapped sub-item column pass preserves the key-set invariant. -/
theorem subColStep_keysOk (d : List (Str × Str)) (col : ColumnValue)
    (h : keysOk d) : keysOk (subColStep d col) := by
  unfold subColStep
  cases hl : column_mappings.lookup col.id with
  | none => exact h
  | some param_name =>
    have hp := column_mappings_values param_name
      (lookup_mem_values _ _ _ hl)
    split_ifs
    all_goals first
      | exact h
      | exact keysOk_dictSet _ _ _ hp h

/-- The Target U-Value override pass preserves the key-set invariant. -/
theorem wasteageStep_keysOk (d : List (Str × Str)) (col : ColumnValue)
    (h : keysOk d) : keysOk (wasteageStep d col) := by
  unfold wasteageStep
  split_ifs
  all_goals first
    | exact h
    | exact keysOk_dictSet _ _ _ (Or.inl (by decide)) h

/-- On a record with exactly one sub-item the sub-item sort is the identity,
and the extraction reduces to the three passes over that sub-item. -/
theorem extract_single_subitem (today : Str) (cvs : List ColumnValue) (sub : SubItem) :
    extract_parameters_from_monday_project today
        { column_values := cvs, subitems := some [sub] } =
      sub.column_values.foldl wasteageStep
        (sub.column_values.foldl subColStep
          (if sub.name.contains '_' then
            dictSet (dictSet (cvs.foldl mainColStep initParams) dateReceivedK today)
              drawingReferenceK sub.name
          else dictSet (cvs.foldl mainColStep initParams) dateReceivedK today)) := by
  unfold extract_parameters_from_monday_project
  dsimp only
  rw [if_neg (by simp : ¬(List.isEmpty [sub] = true)), List.mergeSort_singleton]

/-- C1 counterexample: a record whose sub-item carries a populated Designer
(`mirror39__1`) column produces a ParameterSet with the extra key
`"Designer"`, which is not among the 14 fixed keys. -/
theorem c1_counterexample :
    designerK ∈ dictKeys (extract_parameters_from_monday_project c1today c1project) ∧
      designerK ∉ fixedParamKeys := by
  constructor
  · show designerK ∈ dictKeys (extract_parameters_from_monday_project c1today
      { column_values := [], subitems := some [c1subitem] })
    rw [extract_single_subitem]
    decide
  · decide

/-- C1 (amended): the ParameterSet returned by
`extract_parameters_from_monday_project` always contains the 14 fixed keys in
their initialization order, and at most one extra key, `"Designer"`, appended
at the end (it appears exactly when the selected sub-item carries a usable
Designer column). -/
theorem c1_amended_fixed_keys_plus_designer (today : Str) (pd : ProjectDetails) :
    dictKeys (extract_parameters_from_monday_project today pd) = fixedParamKeys ∨
      dictKeys (extract_parameters_from_monday_project today pd) =
        fixedParamKeys ++ [designerK] := by
  show keysOk (extract_parameters_from_monday_project today pd)
  unfold extract_parameters_from_monday_project
  dsimp only
  have h0 : keysOk initParams := Or.inl rfl
  have h1 : keysOk (pd.column_values.foldl mainColStep initParams) :=
    foldl_keysOk _ mainColStep_keysOk _ _ h0
  have h2 : keysOk (dictSet (pd.column_values.foldl mainColStep initParams)
      dateReceivedK today) :=
    keysOk_dictSet _ _ _ (Or.inl (by decide)) h1
  cases hs : pd.subitems with
  | none => exact h2
  | some subs =>
    dsimp only
    by_cases he : subs.isEmpty = true
    · rw [if_pos he]
      exact h2
    · rw [if_neg he]
      cases hms : subs.mergeSort subIdDesc with
      | nil => exact h2
      | cons latest rest =>
        have h3 : keysOk (if latest.name.contains '_' then
            dictSet (dictSet (pd.column_values.foldl mainColStep initParams)
              dateReceivedK today) drawingReferenceK latest.name
          else dictSet (pd.column_values.foldl mainColStep initParams)
            dateReceivedK today) := by
          split
          · exact keysOk_dictSet _ _ _ (Or.inl (by decide)) h2
          · exact h2
        exact foldl_keysOk _ wasteageStep_keysOk _ _
          (foldl_keysOk _ subColStep_keysOk _ _ h3)

/-- C8 counterexample: on a free text whose Post Code line reads
`Post Code: not provided`, the pipeline keeps the literal value
`"not provided"`; no normalization to `"Not provided"` takes place (the guard
compares case-sensitively against the exact sentinels only). -/
theorem c8_counterexample :
    freeTextPostCode c8NotProvidedText = notProvidedLowerS ∧
      notProvidedLowerS ≠ notProvidedS := by
  exact ⟨by decide, by decide⟩

/-- C8 (amended): the free-text Post Code value is post-processed only by the
area extraction: when the stripped value is non-empty and differs from the
sentinels `"Not found"` and `"Not provided"`, it is replaced by the group of
the leftmost `([A-Z]{1,2})[0-9]` match on its uppercased form, and kept
unchanged when no such match exists; there is no prefix-phrase stripping and
no `"not provided"` normalization.  In particular the line
`Post Code: SW1A 1AA, London` yields `"SW"`. -/
theorem c8_amended_postcode_area :
    (∀ v a, truthyStr v = true → v ≠ notFoundS → v ≠ notProvidedS →
      ukAreaSearch (v.map Char.toUpper) = some a → postCodeProcess v = a) ∧
    (∀ v, truthyStr v = true → v ≠ notFoundS → v ≠ notProvidedS →
      ukAreaSearch (v.map Char.toUpper) = none → postCodeProcess v = v) ∧
    freeTextPostCode c8ExampleText = swS := by
  refine ⟨fun v a h1 h2 h3 h4 => ?_, fun v h1 h2 h3 h4 => ?_, by decide⟩
  · unfold postCodeProcess
    rw [if_pos ⟨h1, h2, h3⟩, h4]
  · unfold postCodeProcess
    rw [if_pos ⟨h1, h2, h3⟩, h4]

/-- C8 witness: the value `"sw1a 1aa"` passes the guard and its uppercased
form matches the postcode pattern with area letters `"SW"`. -/
theorem c8_witness :
    truthyStr c8WitnessValue = true ∧ c8WitnessValue ≠ notFoundS ∧
      c8WitnessValue ≠ notProvidedS ∧
      ukAreaSearch (c8WitnessValue.map Char.toUpper) = some swS ∧
      postCodeProcess c8WitnessValue = swS :=
  ⟨by decide, by decide, by decide, by decide,
    c8_amended_postcode_area.1 c8WitnessValue swS (by decide) (by decide) (by decide)
      (by decide)⟩
